import Mathlib

/-!
Shallow embedding of the core of `agent-cli-to-api`:

* `codex_gateway/doctor.py` — the credential readiness evaluator
  (provider normalization, boolean feature flags, per-provider checks,
  required/optional marking, verdict aggregation, report rendering);
* `codex_gateway/openai_compat.py` — the chat request normalizer
  (content-text extraction, prompt building, image-URL extraction).

Python values reaching the normalizer are modelled by the inductive
`PyVal`; the process environment and the external collaborators the
doctor consults (binary discovery, credential loaders, the async OAuth
refresher) are modelled by the record `Env`, one field per observable.
A collaborator that may raise is modelled by `Except String`, the error
string standing for Python's `str(e)`.
-/

namespace CodexGateway

/-! ### ASCII models of the Python string primitives used by the source -/

/-- Characters removed by Python's `str.strip()` (ASCII whitespace). -/
def isSpaceChar (c : Char) : Bool :=
  c == ' ' || c == '\t' || c == '\n' || c == '\r' || c == '\x0b' || c == '\x0c'

/-- Model of Python's `str.strip()`: drop leading and trailing whitespace. -/
def pyStrip (s : String) : String :=
  String.mk (((s.data.dropWhile isSpaceChar).reverse.dropWhile isSpaceChar).reverse)

/-- ASCII lowering of one character. -/
def charLower (c : Char) : Char :=
  if 65 ≤ c.toNat ∧ c.toNat ≤ 90 then Char.ofNat (c.toNat + 32) else c

/-- ASCII raising of one character. -/
def charUpper (c : Char) : Char :=
  if 97 ≤ c.toNat ∧ c.toNat ≤ 122 then Char.ofNat (c.toNat - 32) else c

/-- Model of Python's `str.lower()` (ASCII range). -/
def pyLower (s : String) : String := String.mk (s.data.map charLower)

/-- Model of Python's `str.upper()` (ASCII range). -/
def pyUpper (s : String) : String := String.mk (s.data.map charUpper)

/-- Truthiness of an optional string, as Python's `bool(x)` /
`x or d` sees it: `None` and `""` are falsy, everything else truthy. -/
def pyTruthy : Option String → Bool
  | some s => !(s == "")
  | none => false

/-- Python's `str(b)` on a boolean. -/
def pyBoolStr (b : Bool) : String := if b then "True" else "False"

/-! ### Python values (`openai_compat.py` inputs)

`content` fields arriving from a JSON payload are untyped: `None`,
strings, lists, dicts (string-keyed mappings, keys unique), or any
other scalar. `pyother` carries the string such a scalar coerces to. -/

inductive PyVal where
  | pynone
  | pystr (s : String)
  | pylist (xs : List PyVal)
  | pydict (entries : List (String × PyVal))
  | pyother (coerced : String)

/-- Python's `d.get(k)`: the value at the first matching key, if any. -/
def dictGet (es : List (String × PyVal)) (k : String) : Option PyVal :=
  (es.find? (fun e => e.1 == k)).map (fun e => e.2)

mutual

/-- Model of Python's `repr` on a `PyVal` (string quoting is modelled
with a plain single quote, without escaping). -/
def pyRepr : PyVal → String
  | .pynone => "None"
  | .pystr s => "\x27" ++ s ++ "\x27"
  | .pylist xs => "[" ++ pyReprList xs ++ "]"
  | .pydict es => "\x7b" ++ pyReprDict es ++ "\x7d"
  | .pyother r => r

/-- Comma-separated `repr` of list elements. -/
def pyReprList : List PyVal → String
  | [] => ""
  | [x] => pyRepr x
  | x :: y :: xs => pyRepr x ++ ", " ++ pyReprList (y :: xs)

/-- Comma-separated `repr` of dict entries. -/
def pyReprDict : List (String × PyVal) → String
  | [] => ""
  | [e] => "\x27" ++ e.1 ++ "\x27: " ++ pyRepr e.2
  | e :: f :: es => "\x27" ++ e.1 ++ "\x27: " ++ pyRepr e.2 ++ ", " ++ pyReprDict (f :: es)

end

/-- Model of Python's builtin `str()` coercion: the identity on strings,
`repr`-like elsewhere (`str` and `repr` agree on `None`, lists, dicts). -/
def pyStr : PyVal → String
  | .pystr s => s
  | v => pyRepr v

/-! ### `openai_compat.py` — chat request normalizer -/

/-- The body of the list loop of `normalize_message_content`
(openai_compat.py:34-38): the `text` of a mapping part with
`type == "text"` and a string `text` field, `none` otherwise. -/
def textPart : PyVal → Option String
  | .pydict es =>
    match dictGet es "type", dictGet es "text" with
    | some (.pystr "text"), some (.pystr t) => some t
    | _, _ => none
  | _ => none

/-- Embeds `normalize_message_content` (openai_compat.py:27-43):
total content-text extraction over any content value. -/
def normalize_message_content : PyVal → String
  | .pynone => ""
  | .pystr s => s
  | .pylist xs => String.join (xs.filterMap textPart)
  | .pydict es =>
    match dictGet es "type", dictGet es "text" with
    | some (.pystr "text"), some (.pystr t) => t
    | _, _ => pyStr (.pydict es)
  | .pyother r => pyStr (.pyother r)

/-- The `role` literal of a `ChatMessage` (openai_compat.py:8-10). -/
inductive Role where
  | system
  | user
  | assistant
  | tool
  | developer
deriving DecidableEq

/-- The string a `Role` literal denotes. -/
def Role.str : Role → String
  | .system => "system"
  | .user => "user"
  | .assistant => "assistant"
  | .tool => "tool"
  | .developer => "developer"

/-- Embeds `ChatMessage` (openai_compat.py:8-10): a validated role and
an untyped content value. -/
structure ChatMessage where
  role : Role
  content : PyVal

/-- Embeds `messages_to_prompt` (openai_compat.py:46-52). -/
def messages_to_prompt (messages : List ChatMessage) : String :=
  pyStrip (String.intercalate "\n\n"
    (messages.map fun m => pyUpper m.role.str ++ ": " ++ normalize_message_content m.content))

/-- The per-part rule of `extract_image_urls_from_content`: the body of
the list loop (openai_compat.py:76-88), which the single-mapping branch
(openai_compat.py:61-71) repeats verbatim for a bare dict. -/
def partImageUrls (part : PyVal) : List String :=
  match part with
  | .pydict es =>
    match dictGet es "type" with
    | some (.pystr t) =>
      if t = "image_url" ∨ t = "input_image" then
        match dictGet es "image_url" with
        | some (.pydict ies) =>
          (match dictGet ies "url" with
           | some (.pystr u) => if u = "" then [] else [u]
           | _ => [])
        | some (.pystr s) => if s = "" then [] else [s]
        | _ => []
      else []
    | _ => []
  | _ => []

/-- Embeds `extract_image_urls_from_content` (openai_compat.py:55-90). -/
def extract_image_urls_from_content : PyVal → List String
  | .pynone => []
  | .pydict es => partImageUrls (.pydict es)
  | .pylist xs => xs.flatMap partImageUrls
  | _ => []

/-- Embeds `extract_image_urls` (openai_compat.py:93-97). -/
def extract_image_urls (messages : List ChatMessage) : List String :=
  messages.flatMap fun m => extract_image_urls_from_content m.content

/-! ### `doctor.py` — environment and collaborator model

`Env` packages everything `run_doctor` observes: the four environment
variables it reads, the result of `shutil.which` per binary name, and
the credential artifacts its three loader collaborators return.
`claude_refresh` is the outcome of awaiting
`maybe_refresh_claude_oauth`: `Except.error e` models the collaborator
raising an exception with text `e`. Paths are the already
`expanduser`-ed strings the checks interpolate into details. -/

/-- Codex credential artifact (`load_codex_auth` result). -/
structure CodexAuth where
  access_token : Option String
  api_key : Option String

/-- Gemini/Claude OAuth credential artifact. -/
structure OAuthCreds where
  access_token : Option String
  refresh_token : Option String

/-- One evaluation's view of the environment and collaborators. -/
structure Env where
  codex_provider : Option String
  claude_use_oauth_api : Option String
  gemini_use_cloudcode_api : Option String
  codex_workspace : Option String
  which : String → Option String
  codex_auth : CodexAuth
  gemini_creds_path : String
  gemini_creds_exists : Bool
  gemini_creds : OAuthCreds
  claude_creds_path : String
  claude_creds_exists : Bool
  claude_refresh : Except String OAuthCreds
  workspace_path : String
  workspace_ok : Bool

/-- Embeds `_env_bool` (doctor.py:15-23). -/
def _env_bool (raw : Option String) (default : Bool) : Bool :=
  let v := pyLower (pyStrip (raw.getD ""))
  if v = "" then default
  else if v ∈ ["1", "true", "yes", "y", "on"] then true
  else if v ∈ ["0", "false", "no", "n", "off"] then false
  else default

/-- Embeds `_normalize_provider` (doctor.py:26-34). -/
def _normalize_provider (raw : Option String) : String :=
  let p := pyLower (pyStrip (raw.getD ""))
  if p = "" then "auto"
  else if p ∈ ["auto", "codex", "gemini", "claude", "cursor-agent"] then p
  else if p ∈ ["cursor", "cursoragent", "cursor_agent"] then "cursor-agent"
  else "auto"

/-- Embeds the `CheckResult` dataclass (doctor.py:37-42). -/
structure CheckResult where
  name : String
  ok : Bool
  required : Bool
  details : String
deriving DecidableEq

/-- Embeds `_fmt_status` (doctor.py:45-48). -/
def _fmt_status (ok : Bool) (required : Bool) : String :=
  if ok then "OK" else if required then "FAIL" else "WARN"

/-- Embeds `_check_binary` (doctor.py:55-57); `shutil.which` is the
`Env.which` observable. -/
def _check_binary (env : Env) (label bin_name : String) (required : Bool) : CheckResult :=
  let p := env.which bin_name
  CheckResult.mk (label ++ " binary") (pyTruthy p) required
    (match p with
     | some s => if s == "" then "not found on PATH: " ++ bin_name else s
     | none => "not found on PATH: " ++ bin_name)

/-- Embeds `_check_codex_auth` (doctor.py:60-64). -/
def _check_codex_auth (env : Env) (required : Bool) : CheckResult :=
  let ok := pyTruthy env.codex_auth.access_token || pyTruthy env.codex_auth.api_key
  CheckResult.mk "Codex auth" ok required
    (if ok then "auth ok" else "missing ~/.codex/auth.json tokens (run `codex login`)")

/-- Embeds `_check_gemini_creds` (doctor.py:67-78). -/
def _check_gemini_creds (env : Env) (required : Bool) : CheckResult :=
  if !env.gemini_creds_exists then
    CheckResult.mk "Gemini OAuth cache" false required
      ("missing: " ++ env.gemini_creds_path ++ " (run `gemini auth login`)")
  else
    let ok := pyTruthy env.gemini_creds.access_token || pyTruthy env.gemini_creds.refresh_token
    CheckResult.mk "Gemini OAuth cache" ok required
      (env.gemini_creds_path ++ " (access=" ++ pyBoolStr (pyTruthy env.gemini_creds.access_token)
        ++ " refresh=" ++ pyBoolStr (pyTruthy env.gemini_creds.refresh_token) ++ ")")

/-- Embeds `_check_claude_oauth_refreshable` (doctor.py:81-100); the
`try/except` around `await maybe_refresh_claude_oauth` becomes the
`Except` match, the caught exception text `e` landing in `details`. -/
def _check_claude_oauth_refreshable (env : Env) (required : Bool) : CheckResult :=
  if !env.claude_creds_exists then
    CheckResult.mk "Claude OAuth cache" false required
      ("missing: " ++ env.claude_creds_path ++ " (run `uv run python -m codex_gateway.claude_oauth_login`)")
  else
    match env.claude_refresh with
    | .error e =>
      CheckResult.mk "Claude OAuth cache" false required
        (env.claude_creds_path ++ " (refresh failed: " ++ e ++ ")")
    | .ok creds =>
      let ok := pyTruthy creds.access_token || pyTruthy creds.refresh_token
      CheckResult.mk "Claude OAuth cache" ok required
        (env.claude_creds_path ++ " (access=" ++ pyBoolStr (pyTruthy creds.access_token)
          ++ " refresh=" ++ pyBoolStr (pyTruthy creds.refresh_token) ++ ")")

/-- Embeds `_check_workspace_file` (doctor.py:103-109); `workspace_ok`
is `path.exists() and path.is_dir()`. -/
def _check_workspace_file (env : Env) (required : Bool) : CheckResult :=
  match env.codex_workspace with
  | none => CheckResult.mk "CODEX_WORKSPACE" true required "not set"
  | some w =>
    if w == "" then CheckResult.mk "CODEX_WORKSPACE" true required "not set"
    else if env.workspace_ok then CheckResult.mk "CODEX_WORKSPACE" true required env.workspace_path
    else CheckResult.mk "CODEX_WORKSPACE" false required
      ("missing or not a directory: " ++ env.workspace_path)

/-! ### `run_doctor` (doctor.py:112-193), decomposed

The locals of `run_doctor` become top-level definitions so each claim
can speak about one of them: the normalized provider, the two feature
flags, the four readiness booleans (doctor.py:123-136), the check set
(doctor.py:138-168), the two aggregation booleans and the verdict
(doctor.py:170-193). -/

/-- `provider = _normalize_provider(os.environ.get("CODEX_PROVIDER"))` (doctor.py:113). -/
def doctor_provider (env : Env) : String := _normalize_provider env.codex_provider

/-- `claude_use_oauth = _env_bool("CLAUDE_USE_OAUTH_API", False)` (doctor.py:114). -/
def claude_use_oauth (env : Env) : Bool := _env_bool env.claude_use_oauth_api false

/-- `gemini_use_cloudcode = _env_bool("GEMINI_USE_CLOUDCODE_API", False)` (doctor.py:115). -/
def gemini_use_cloudcode (env : Env) : Bool := _env_bool env.gemini_use_cloudcode_api false

/-- `codex_ready = codex_bin.ok and codex_auth.ok` (doctor.py:123-125). -/
def codex_ready (env : Env) : Bool :=
  (_check_binary env "codex" "codex" (doctor_provider env == "codex")).ok &&
  (_check_codex_auth env (doctor_provider env == "codex")).ok

/-- `gemini_ready = gemini_bin.ok and (gemini_creds.ok if gemini_use_cloudcode else True)` (doctor.py:127-129). -/
def gemini_ready (env : Env) : Bool :=
  (_check_binary env "gemini" "gemini" (doctor_provider env == "gemini")).ok &&
  (if gemini_use_cloudcode env then
    (_check_gemini_creds env (doctor_provider env == "gemini" && gemini_use_cloudcode env)).ok
   else true)

/-- `claude_ready = (claude_oauth.ok if claude_use_oauth else claude_bin.ok)` (doctor.py:131-133). -/
def claude_ready (env : Env) : Bool :=
  if claude_use_oauth env then
    (_check_claude_oauth_refreshable env (doctor_provider env == "claude" && claude_use_oauth env)).ok
  else
    (_check_binary env "claude" "claude" (doctor_provider env == "claude" && !claude_use_oauth env)).ok

/-- `cursor_ready = cursor_bin.ok` (doctor.py:135-136). -/
def cursor_ready (env : Env) : Bool :=
  (_check_binary env "cursor-agent" "cursor-agent" (doctor_provider env == "cursor-agent")).ok

/-- `codex_ready or gemini_ready or claude_ready or cursor_ready` (doctor.py:179). -/
def any_provider_ready (env : Env) : Bool :=
  codex_ready env || gemini_ready env || claude_ready env || cursor_ready env

/-- The provider-scoped check list built at doctor.py:138-165: the
per-provider branches append the let-bound checks of doctor.py:123-135
(constructed there with their `required` arguments), the final `else`
branch being the all-providers union for `auto`. -/
def provider_checks (env : Env) : List CheckResult :=
  let provider := doctor_provider env
  let codex_bin := _check_binary env "codex" "codex" (provider == "codex")
  let codex_auth := _check_codex_auth env (provider == "codex")
  let gemini_bin := _check_binary env "gemini" "gemini" (provider == "gemini")
  let gemini_creds := _check_gemini_creds env (provider == "gemini" && gemini_use_cloudcode env)
  let claude_bin := _check_binary env "claude" "claude" (provider == "claude" && !claude_use_oauth env)
  let claude_oauth := _check_claude_oauth_refreshable env (provider == "claude" && claude_use_oauth env)
  let cursor_bin := _check_binary env "cursor-agent" "cursor-agent" (provider == "cursor-agent")
  if provider == "codex" then
    [codex_bin, codex_auth]
  else if provider == "gemini" then
    [gemini_bin, if gemini_use_cloudcode env then gemini_creds else _check_gemini_creds env false]
  else if provider == "claude" then
    (if claude_use_oauth env then
      [claude_oauth, _check_binary env "claude" "claude" false]
     else
      [claude_bin, _check_claude_oauth_refreshable env false])
  else if provider == "cursor-agent" then
    [cursor_bin]
  else
    [_check_binary env "codex" "codex" false,
     _check_codex_auth env false,
     _check_binary env "gemini" "gemini" false,
     _check_gemini_creds env false,
     _check_binary env "claude" "claude" false,
     _check_claude_oauth_refreshable env false,
     _check_binary env "cursor-agent" "cursor-agent" false]

/-- The full check list: provider checks plus, when `CODEX_WORKSPACE`
is set non-empty, the required workspace check (doctor.py:167-168). -/
def doctor_checks (env : Env) : List CheckResult :=
  provider_checks env ++
    (if pyTruthy env.codex_workspace then [_check_workspace_file env true] else [])

/-- `required_failed` after the auto-mode forcing (doctor.py:175,178-180):
some required check failed, or the selection is `auto` and no provider
computed ready. -/
def required_failed (env : Env) : Bool :=
  (doctor_checks env).any (fun c => !c.ok && c.required) ||
  (doctor_provider env == "auto" && !any_provider_ready env)

/-- `warnings = any((not c.ok) and (not c.required) for c in checks)` (doctor.py:176). -/
def doctor_warnings (env : Env) : Bool :=
  (doctor_checks env).any (fun c => !c.ok && !c.required)

/-- The `result` string printed at doctor.py:182-192. -/
def doctor_result (env : Env) : String :=
  if required_failed env then "FAIL"
  else if doctor_warnings env then "OK (with warnings)"
  else "OK"

/-- The exit code returned at doctor.py:182-193. -/
def doctor_code (env : Env) : Nat :=
  if required_failed env then 1 else 0

/-- What one run of `run_doctor` produces: the ordered check report,
the result line, and the exit code. -/
structure DoctorReport where
  checks : List CheckResult
  result : String
  code : Nat
deriving DecidableEq

/-- Embeds `run_doctor` (doctor.py:112-193) as the report it produces. -/
def run_doctor (env : Env) : DoctorReport :=
  { checks := doctor_checks env
    result := doctor_result env
    code := doctor_code env }

/-! ### Report rendering (doctor.py:170-173) -/

/-- `width = max(len(c.name) for c in checks) if checks else 10` (doctor.py:170). -/
def report_width (checks : List CheckResult) : Nat :=
  if checks.isEmpty then 10 else (checks.map (fun c => c.name.length)).foldl max 0

/-- Python's `str.ljust`: pad on the right with spaces up to `w`. -/
def ljust (s : String) (w : Nat) : String :=
  s ++ String.mk (List.replicate (w - s.length) ' ')

/-- One printed check line (doctor.py:173). -/
def render_check_line (width : Nat) (c : CheckResult) : String :=
  "- " ++ ljust c.name width ++ " : " ++ _fmt_status c.ok c.required ++ "  " ++ c.details

/-- All printed check lines of a report (doctor.py:170-173). -/
def report_lines (checks : List CheckResult) : List String :=
  checks.map (render_check_line (report_width checks))

/-! ### Helper lemmas -/

/-- Appending `String.mk`s concatenates the character lists. -/
theorem string_append_mk (a b : List Char) : (⟨a⟩ : String) ++ ⟨b⟩ = ⟨a ++ b⟩ := rfl

/-- The character list of an appended string. -/
theorem string_data_append (a b : String) : (a ++ b).data = a.data ++ b.data := by
  cases a; cases b; rfl

/-- String append is associative. -/
theorem string_append_assoc (a b c : String) : a ++ b ++ c = a ++ (b ++ c) := by
  cases a; cases b; cases c
  rw [string_append_mk, string_append_mk, string_append_mk, string_append_mk, List.append_assoc]

/-- `String.join` peels off the head summand. -/
theorem string_join_cons (t : String) (l : List String) :
    String.join (t :: l) = t ++ String.join l := by
  rw [String.join_eq, String.join_eq]
  cases t
  rw [string_append_mk]
  simp

/-- Provider normalization lands in the five identifiers. -/
theorem normalize_provider_mem (raw : Option String) :
    _normalize_provider raw ∈
      (["auto", "codex", "gemini", "claude", "cursor-agent"] : List String) := by
  simp only [_normalize_provider]
  split
  · simp
  · split
    · next h => exact h
    · split
      · simp
      · simp

/-- The `required` flag of a binary check is its argument. -/
theorem check_binary_required (env : Env) (l b : String) (r : Bool) :
    (_check_binary env l b r).required = r := rfl

/-- The name of a binary check is its label plus `" binary"`. -/
theorem check_binary_name (env : Env) (l b : String) (r : Bool) :
    (_check_binary env l b r).name = l ++ " binary" := rfl

/-- The `required` flag of the codex auth check is its argument. -/
theorem check_codex_auth_required (env : Env) (r : Bool) :
    (_check_codex_auth env r).required = r := rfl

/-- The `required` flag of the gemini creds check is its argument. -/
theorem check_gemini_creds_required (env : Env) (r : Bool) :
    (_check_gemini_creds env r).required = r := by
  unfold _check_gemini_creds
  split <;> rfl

/-- The name of the gemini creds check is fixed. -/
theorem check_gemini_creds_name (env : Env) (r : Bool) :
    (_check_gemini_creds env r).name = "Gemini OAuth cache" := by
  unfold _check_gemini_creds
  split <;> rfl

/-- The `required` flag of the claude OAuth check is its argument. -/
theorem check_claude_oauth_required (env : Env) (r : Bool) :
    (_check_claude_oauth_refreshable env r).required = r := by
  unfold _check_claude_oauth_refreshable
  split
  · rfl
  · split <;> rfl

/-- The name of the claude OAuth check is fixed. -/
theorem check_claude_oauth_name (env : Env) (r : Bool) :
    (_check_claude_oauth_refreshable env r).name = "Claude OAuth cache" := by
  unfold _check_claude_oauth_refreshable
  split
  · rfl
  · split <;> rfl

/-- The `required` flag of the workspace check is its argument. -/
theorem check_workspace_required (env : Env) (r : Bool) :
    (_check_workspace_file env r).required = r := by
  unfold _check_workspace_file
  split
  · rfl
  · split
    · rfl
    · split <;> rfl

/-! ### C1 — provider normalization -/

/-- C1: provider normalization is total and deterministic and returns one
of the five identifiers; input is trimmed and lowercased; empty or absent
input yields `auto`; the five identifiers map to themselves; the three
cursor aliases map to `cursor-agent`; every other input maps to `auto`. -/
theorem normalize_provider_spec :
    (∀ raw, _normalize_provider raw ∈
      (["auto", "codex", "gemini", "claude", "cursor-agent"] : List String)) ∧
    _normalize_provider none = "auto" ∧
    _normalize_provider (some "") = "auto" ∧
    (∀ s, pyLower (pyStrip s) ∈ (["auto", "codex", "gemini", "claude", "cursor-agent"] : List String) →
      _normalize_provider (some s) = pyLower (pyStrip s)) ∧
    (∀ s, pyLower (pyStrip s) ∈ (["cursor", "cursoragent", "cursor_agent"] : List String) →
      _normalize_provider (some s) = "cursor-agent") ∧
    (∀ s, pyLower (pyStrip s) ∉
        (["auto", "codex", "gemini", "claude", "cursor-agent",
          "cursor", "cursoragent", "cursor_agent"] : List String) →
      _normalize_provider (some s) = "auto") := by
  refine ⟨normalize_provider_mem, rfl, rfl, ?_, ?_, ?_⟩
  · intro s h
    simp only [_normalize_provider, Option.getD_some]
    split
    · next h1 => rw [h1] at h; simp at h
    · rfl
  · intro s h
    simp only [_normalize_provider, Option.getD_some]
    split
    · next h1 => rw [h1] at h; simp at h
    · split
      · next h2 =>
        exfalso
        simp only [List.mem_cons, List.not_mem_nil, or_false] at h h2
        rcases h with h | h | h <;>
          rcases h2 with h2 | h2 | h2 | h2 | h2 <;> rw [h] at h2 <;> simp at h2
      · rfl
  · intro s h
    simp only [_normalize_provider, Option.getD_some]
    split
    · rfl
    · split
      · next h2 =>
        exfalso
        apply h
        simp only [List.mem_cons, List.not_mem_nil, or_false] at h2 ⊢
        tauto
      · split
        · next h3 =>
          exfalso
          apply h
          simp only [List.mem_cons, List.not_mem_nil, or_false] at h3 ⊢
          tauto
        · rfl

/-- Witness for C1: a padded upper-case alias and an unrecognized value. -/
theorem normalize_provider_spec_witness :
    _normalize_provider (some " CURSOR ") = "cursor-agent" ∧
    _normalize_provider (some "bogus") = "auto" :=
  ⟨normalize_provider_spec.2.2.2.2.1 " CURSOR " (by decide),
   normalize_provider_spec.2.2.2.2.2 "bogus" (by decide)⟩

/-! ### C10 — boolean feature-flag parsing -/

/-- C10: each feature flag's environment value is parsed totally and
deterministically: trimmed and lowercased, the five truthy spellings
yield `true`, the five falsy spellings yield `false`, and unset, empty
or any other value yields the default `false`; `run_doctor` derives
both flags this way with default `false`. -/
theorem env_bool_spec :
    _env_bool none false = false ∧
    _env_bool (some "") false = false ∧
    (∀ s, pyLower (pyStrip s) ∈ (["1", "true", "yes", "y", "on"] : List String) →
      _env_bool (some s) false = true) ∧
    (∀ s, pyLower (pyStrip s) ∈ (["0", "false", "no", "n", "off"] : List String) →
      _env_bool (some s) false = false) ∧
    (∀ s, pyLower (pyStrip s) ∉
        (["1", "true", "yes", "y", "on", "0", "false", "no", "n", "off"] : List String) →
      _env_bool (some s) false = false) ∧
    (∀ env : Env, claude_use_oauth env = _env_bool env.claude_use_oauth_api false ∧
      gemini_use_cloudcode env = _env_bool env.gemini_use_cloudcode_api false) := by
  refine ⟨rfl, rfl, ?_, ?_, ?_, fun env => ⟨rfl, rfl⟩⟩
  · intro s h
    simp only [_env_bool, Option.getD_some]
    split
    · next h1 => rw [h1] at h; simp at h
    · rfl
  · intro s h
    simp only [_env_bool, Option.getD_some]
    split
    · rfl
    · split
      · next h2 =>
        exfalso
        simp only [List.mem_cons, List.not_mem_nil, or_false] at h h2
        rcases h with h | h | h | h | h <;>
          rcases h2 with h2 | h2 | h2 | h2 | h2 <;> rw [h] at h2 <;> simp at h2
      · rfl
  · intro s h
    simp only [_env_bool, Option.getD_some]
    split
    · rfl
    · split
      · next h2 =>
        exfalso
        apply h
        simp only [List.mem_cons, List.not_mem_nil, or_false] at h2 ⊢
        tauto
      · split
        · next h3 =>
          exfalso
          apply h
          simp only [List.mem_cons, List.not_mem_nil, or_false] at h3 ⊢
          tauto
        · rfl

/-- Witness for C10: a padded upper-case truthy value, a falsy value,
and an unrecognized value, all with default `false`. -/
theorem env_bool_spec_witness :
    _env_bool (some " On ") false = true ∧
    _env_bool (some "OFF") false = false ∧
    _env_bool (some "junk") false = false :=
  ⟨env_bool_spec.2.2.1 " On " (by decide),
   env_bool_spec.2.2.2.1 "OFF" (by decide),
   env_bool_spec.2.2.2.2.1 "junk" (by decide)⟩

/-! ### C6 — content-text extraction -/

/-- A part of `text` shape contributes its text. -/
theorem textPart_of_text (es : List (String × PyVal)) (t : String)
    (h1 : dictGet es "type" = some (PyVal.pystr "text"))
    (h2 : dictGet es "text" = some (PyVal.pystr t)) :
    textPart (PyVal.pydict es) = some t := by
  simp only [textPart, h1, h2]

/-- A part not of `text` shape contributes nothing. -/
theorem textPart_of_not_text (p : PyVal)
    (h : ∀ es, p = PyVal.pydict es →
      ¬(dictGet es "type" = some (PyVal.pystr "text") ∧
        ∃ t, dictGet es "text" = some (PyVal.pystr t))) :
    textPart p = none := by
  cases p with
  | pydict es =>
    have hes := h es rfl
    simp only [textPart]
    split
    · next t heq1 heq2 => exact absurd ⟨heq1, t, heq2⟩ hes
    · rfl
  | pynone => rfl
  | pystr s => rfl
  | pylist xs => rfl
  | pyother r => rfl

/-- C6: content-text extraction is total and never fails: null yields the
empty string; a string yields itself; a list yields the concatenation
(no separator) of the `text` field of exactly those elements that are
mappings with `type == "text"` and a string `text` field, all other
elements skipped silently; a non-list mapping of that shape yields its
text; every other value (including mappings of other types) yields its
generic string coercion. Includes the spec's concrete examples. -/
theorem content_text_spec :
    normalize_message_content PyVal.pynone = "" ∧
    (∀ s, normalize_message_content (PyVal.pystr s) = s) ∧
    normalize_message_content (PyVal.pylist []) = "" ∧
    (∀ es t xs, dictGet es "type" = some (PyVal.pystr "text") →
      dictGet es "text" = some (PyVal.pystr t) →
      normalize_message_content (PyVal.pylist (PyVal.pydict es :: xs)) =
        t ++ normalize_message_content (PyVal.pylist xs)) ∧
    (∀ p xs, (∀ es, p = PyVal.pydict es →
        ¬(dictGet es "type" = some (PyVal.pystr "text") ∧
          ∃ t, dictGet es "text" = some (PyVal.pystr t))) →
      normalize_message_content (PyVal.pylist (p :: xs)) =
        normalize_message_content (PyVal.pylist xs)) ∧
    (∀ es t, dictGet es "type" = some (PyVal.pystr "text") →
      dictGet es "text" = some (PyVal.pystr t) →
      normalize_message_content (PyVal.pydict es) = t) ∧
    (∀ es, ¬(dictGet es "type" = some (PyVal.pystr "text") ∧
        ∃ t, dictGet es "text" = some (PyVal.pystr t)) →
      normalize_message_content (PyVal.pydict es) = pyStr (PyVal.pydict es)) ∧
    (∀ r, normalize_message_content (PyVal.pyother r) = pyStr (PyVal.pyother r)) ∧
    normalize_message_content (PyVal.pystr "") = "" ∧
    normalize_message_content (PyVal.pystr "hello") = "hello" ∧
    normalize_message_content (PyVal.pylist
      [PyVal.pydict [("type", PyVal.pystr "text"), ("text", PyVal.pystr "a")],
       PyVal.pydict [("type", PyVal.pystr "other")],
       PyVal.pydict [("type", PyVal.pystr "text"), ("text", PyVal.pystr "b")]]) = "ab" := by
  refine ⟨rfl, fun s => rfl, rfl, ?_, ?_, ?_, ?_, fun r => rfl, rfl, rfl, by decide⟩
  · intro es t xs h1 h2
    simp only [normalize_message_content, List.filterMap_cons, textPart_of_text es t h1 h2]
    exact string_join_cons t _
  · intro p xs hp
    simp only [normalize_message_content, List.filterMap_cons, textPart_of_not_text p hp]
  · intro es t h1 h2
    simp only [normalize_message_content, h1, h2]
  · intro es hes
    simp only [normalize_message_content]
    split
    · next t heq1 heq2 => exact absurd ⟨heq1, t, heq2⟩ hes
    · rfl

/-- Witness for C6: a `text` part prepends its text, a malformed part is
skipped, and a non-`text` mapping falls back to the string coercion. -/
theorem content_text_spec_witness :
    normalize_message_content (PyVal.pylist
      [PyVal.pydict [("type", PyVal.pystr "text"), ("text", PyVal.pystr "hi")]]) = "hi" ∧
    normalize_message_content (PyVal.pylist [PyVal.pystr "stray"]) = "" ∧
    normalize_message_content (PyVal.pydict [("type", PyVal.pystr "image_url")]) =
      pyStr (PyVal.pydict [("type", PyVal.pystr "image_url")]) := by
  refine ⟨?_, ?_, ?_⟩
  · have h := content_text_spec.2.2.2.1 [("type", PyVal.pystr "text"), ("text", PyVal.pystr "hi")]
      "hi" [] rfl rfl
    rw [h]
    rfl
  · have h := content_text_spec.2.2.2.2.1 (PyVal.pystr "stray") []
      (fun es hes => by cases hes)
    rw [h]
    rfl
  · refine content_text_spec.2.2.2.2.2.2.1 [("type", PyVal.pystr "image_url")] ?_
    rintro ⟨h1, -⟩
    have h2 : some (PyVal.pystr "image_url") = some (PyVal.pystr "text") := h1
    simp at h2

/-! ### C7 — prompt construction -/

/-- C7: prompt construction renders each message in input order as
`"<ROLE_UPPERCASED>: <text>"` with `<text>` the content-text extraction
of its content, joins the rendered lines with a blank-line separator,
and strips leading and trailing whitespace from the final result;
includes the spec's concrete example. -/
theorem build_prompt_spec :
    (∀ messages, messages_to_prompt messages =
      pyStrip (String.intercalate "\n\n"
        (messages.map fun m => pyUpper m.role.str ++ ": " ++ normalize_message_content m.content))) ∧
    messages_to_prompt
      [ChatMessage.mk Role.system (PyVal.pystr "Be terse."),
       ChatMessage.mk Role.user (PyVal.pystr "Hi")] = "SYSTEM: Be terse.\n\nUSER: Hi" :=
  ⟨fun _ => rfl, by decide⟩

/-! ### C8 — image-URL extraction -/

/-- Every URL a single part contributes is non-empty. -/
theorem partImageUrls_mem_ne_empty (p : PyVal) (u : String)
    (hu : u ∈ partImageUrls p) : u ≠ "" := by
  unfold partImageUrls at hu
  repeat split at hu
  all_goals simp_all

/-- C8: image-URL extraction is total: for a single mapping of type
`image_url`/`input_image` the URL is the non-empty `url` string of its
`image_url` mapping, or the `image_url` value itself when a non-empty
string; for list content the same per-part rule applies with non-dict
elements skipped; other shapes yield nothing; across messages the
result is the concatenation in order, and it never contains `""`. -/
theorem image_urls_spec :
    (∀ messages, extract_image_urls messages =
      messages.flatMap fun m => extract_image_urls_from_content m.content) ∧
    extract_image_urls_from_content PyVal.pynone = [] ∧
    (∀ s, extract_image_urls_from_content (PyVal.pystr s) = []) ∧
    (∀ r, extract_image_urls_from_content (PyVal.pyother r) = []) ∧
    (∀ es t ies u, dictGet es "type" = some (PyVal.pystr t) →
      (t = "image_url" ∨ t = "input_image") →
      dictGet es "image_url" = some (PyVal.pydict ies) →
      dictGet ies "url" = some (PyVal.pystr u) → u ≠ "" →
      extract_image_urls_from_content (PyVal.pydict es) = [u]) ∧
    (∀ es t u, dictGet es "type" = some (PyVal.pystr t) →
      (t = "image_url" ∨ t = "input_image") →
      dictGet es "image_url" = some (PyVal.pystr u) → u ≠ "" →
      extract_image_urls_from_content (PyVal.pydict es) = [u]) ∧
    (∀ es t, dictGet es "type" = some (PyVal.pystr t) →
      t ≠ "image_url" → t ≠ "input_image" →
      extract_image_urls_from_content (PyVal.pydict es) = []) ∧
    (∀ es, dictGet es "type" = none →
      extract_image_urls_from_content (PyVal.pydict es) = []) ∧
    (∀ xs, extract_image_urls_from_content (PyVal.pylist xs) = xs.flatMap partImageUrls) ∧
    (∀ es, partImageUrls (PyVal.pydict es) =
      extract_image_urls_from_content (PyVal.pydict es)) ∧
    (∀ p, (∀ es, p ≠ PyVal.pydict es) → partImageUrls p = []) ∧
    (∀ messages u, u ∈ extract_image_urls messages → u ≠ "") ∧
    extract_image_urls_from_content (PyVal.pylist
      [PyVal.pydict [("type", PyVal.pystr "image_url"),
         ("image_url", PyVal.pydict [("url", PyVal.pystr "http://x/1.png")])],
       PyVal.pydict [("type", PyVal.pystr "text"), ("text", PyVal.pystr "ignored")],
       PyVal.pydict [("type", PyVal.pystr "input_image"),
         ("image_url", PyVal.pystr "http://x/2.png")]]) =
      ["http://x/1.png", "http://x/2.png"] := by
  refine ⟨fun _ => rfl, rfl, fun s => rfl, fun r => rfl, ?_, ?_, ?_, ?_,
    fun xs => rfl, fun es => rfl, ?_, ?_, by decide⟩
  · intro es t ies u h1 ht h2 h3 hu
    simp only [extract_image_urls_from_content, partImageUrls, h1, h2, h3, if_pos ht, if_neg hu]
  · intro es t u h1 ht h2 hu
    simp only [extract_image_urls_from_content, partImageUrls, h1, h2, if_pos ht, if_neg hu]
  · intro es t h1 ht1 ht2
    have hn : ¬(t = "image_url" ∨ t = "input_image") := by
      rintro (h | h) <;> [exact ht1 h; exact ht2 h]
    simp only [extract_image_urls_from_content, partImageUrls, h1, if_neg hn]
  · intro es h1
    simp only [extract_image_urls_from_content, partImageUrls, h1]
  · intro p hp
    cases p with
    | pydict es => exact absurd rfl (hp es)
    | pynone => rfl
    | pystr s => rfl
    | pylist xs => rfl
    | pyother r => rfl
  · intro messages u hu
    simp only [extract_image_urls, List.mem_flatMap] at hu
    obtain ⟨m, _, hm⟩ := hu
    revert hm
    cases hc : m.content with
    | pynone => intro h; cases h
    | pystr s => intro h; cases h
    | pyother r => intro h; cases h
    | pydict es =>
      intro h
      exact partImageUrls_mem_ne_empty (PyVal.pydict es) u h
    | pylist xs =>
      intro h
      simp only [extract_image_urls_from_content, List.mem_flatMap] at h
      obtain ⟨p, _, hp⟩ := h
      exact partImageUrls_mem_ne_empty p u hp

/-- Witness for C8: both single-part URL forms and the non-matching and
empty-URL cases, at concrete inputs. -/
theorem image_urls_spec_witness :
    extract_image_urls_from_content
      (PyVal.pydict [("type", PyVal.pystr "image_url"),
        ("image_url", PyVal.pydict [("url", PyVal.pystr "http://a/b.png")])]) = ["http://a/b.png"] ∧
    extract_image_urls_from_content
      (PyVal.pydict [("type", PyVal.pystr "input_image"),
        ("image_url", PyVal.pystr "data:image/png;base64,xyz")]) = ["data:image/png;base64,xyz"] ∧
    extract_image_urls_from_content
      (PyVal.pydict [("type", PyVal.pystr "text"), ("text", PyVal.pystr "no")]) = [] :=
  ⟨image_urls_spec.2.2.2.2.1
      [("type", PyVal.pystr "image_url"),
       ("image_url", PyVal.pydict [("url", PyVal.pystr "http://a/b.png")])]
      "image_url" [("url", PyVal.pystr "http://a/b.png")] "http://a/b.png"
      rfl (Or.inl rfl) rfl rfl (by decide),
   image_urls_spec.2.2.2.2.2.1
      [("type", PyVal.pystr "input_image"),
       ("image_url", PyVal.pystr "data:image/png;base64,xyz")]
      "input_image" "data:image/png;base64,xyz" rfl (Or.inr rfl) rfl (by decide),
   image_urls_spec.2.2.2.2.2.2.1
      [("type", PyVal.pystr "text"), ("text", PyVal.pystr "no")]
      "text" rfl (by decide) (by decide)⟩

/-! ### C2 — verdict and exit-code mapping -/

/-- `required_failed` holds exactly when some required check failed or
the auto-mode forcing applies. -/
theorem required_failed_iff (env : Env) :
    required_failed env = true ↔
      ((∃ c ∈ doctor_checks env, c.ok = false ∧ c.required = true) ∨
        (doctor_provider env = "auto" ∧ any_provider_ready env = false)) := by
  simp [required_failed, List.any_eq_true, Bool.and_eq_true, Bool.not_eq_true']

/-- `warnings` holds exactly when some non-required check failed. -/
theorem doctor_warnings_iff (env : Env) :
    doctor_warnings env = true ↔
      (∃ c ∈ doctor_checks env, c.ok = false ∧ c.required = false) := by
  simp [doctor_warnings, List.any_eq_true, Bool.and_eq_true, Bool.not_eq_true']

/-- C2: if any required check failed or the auto-mode forced failure
holds, the verdict is FAIL with exit code 1, regardless of how many
non-required checks also fail; otherwise a failed non-required check
gives "OK (with warnings)" with exit code 0, and otherwise OK with
exit code 0. -/
theorem verdict_mapping (env : Env) :
    (((∃ c ∈ (run_doctor env).checks, c.ok = false ∧ c.required = true) ∨
        (doctor_provider env = "auto" ∧ any_provider_ready env = false)) →
      (run_doctor env).result = "FAIL" ∧ (run_doctor env).code = 1) ∧
    (¬((∃ c ∈ (run_doctor env).checks, c.ok = false ∧ c.required = true) ∨
        (doctor_provider env = "auto" ∧ any_provider_ready env = false)) →
      (((∃ c ∈ (run_doctor env).checks, c.ok = false ∧ c.required = false) →
        (run_doctor env).result = "OK (with warnings)" ∧ (run_doctor env).code = 0) ∧
       ((¬∃ c ∈ (run_doctor env).checks, c.ok = false ∧ c.required = false) →
        (run_doctor env).result = "OK" ∧ (run_doctor env).code = 0))) := by
  have hrf := required_failed_iff env
  have hw := doctor_warnings_iff env
  have hchecks : (run_doctor env).checks = doctor_checks env := rfl
  rw [hchecks]
  constructor
  · intro h
    have hb : required_failed env = true := hrf.mpr h
    simp [run_doctor, doctor_result, doctor_code, hb]
  · intro h
    have hb : required_failed env = false := by
      cases hb : required_failed env
      · rfl
      · exact absurd (hrf.mp hb) h
    constructor
    · intro hwex
      have hwb : doctor_warnings env = true := hw.mpr hwex
      simp [run_doctor, doctor_result, doctor_code, hb, hwb]
    · intro hwex
      have hwb : doctor_warnings env = false := by
        cases hwb : doctor_warnings env
        · rfl
        · exact absurd (hw.mp hwb) hwex
      simp [run_doctor, doctor_result, doctor_code, hb, hwb]

/-- A concrete environment for witnesses: provider `codex` requested,
no binaries discoverable, no credentials anywhere, flags unset, no
workspace, and a refresh collaborator that raises. -/
def envBare : Env :=
  { codex_provider := some "codex"
    claude_use_oauth_api := none
    gemini_use_cloudcode_api := none
    codex_workspace := none
    which := fun _ => none
    codex_auth := { access_token := none, api_key := none }
    gemini_creds_path := "/home/u/.gemini/oauth_creds.json"
    gemini_creds_exists := false
    gemini_creds := { access_token := none, refresh_token := none }
    claude_creds_path := "/home/u/.claude/oauth_creds.json"
    claude_creds_exists := false
    claude_refresh := Except.error "network unreachable"
    workspace_path := ""
    workspace_ok := false }

/-- Witness for C2: with provider `codex` and nothing installed, the
required binary check fails, hence FAIL and exit code 1. -/
theorem verdict_mapping_witness :
    (run_doctor envBare).result = "FAIL" ∧ (run_doctor envBare).code = 1 :=
  (verdict_mapping envBare).1 (Or.inl (by decide))

/-! ### C3 — auto mode -/

/-- C3: when the selection normalizes to `auto`, every check in the
union-of-providers check set is non-required, yet the verdict is FAIL
with exit code 1 whenever all four readiness booleans are false; each
readiness boolean follows its own per-provider rule (codex: binary and
token; gemini: binary, plus OAuth creds only under the cloud-code flag;
claude: OAuth-check result in OAuth mode, else binary; cursor-agent:
binary), independently of which provider was requested. -/
theorem auto_mode_spec (env : Env) (h : doctor_provider env = "auto") :
    (∀ c ∈ provider_checks env, c.required = false) ∧
    (codex_ready env = false → gemini_ready env = false →
      claude_ready env = false → cursor_ready env = false →
      (run_doctor env).result = "FAIL" ∧ (run_doctor env).code = 1) ∧
    codex_ready env = (pyTruthy (env.which "codex") &&
      (pyTruthy env.codex_auth.access_token || pyTruthy env.codex_auth.api_key)) ∧
    gemini_ready env = (pyTruthy (env.which "gemini") &&
      (!gemini_use_cloudcode env ||
        (env.gemini_creds_exists &&
          (pyTruthy env.gemini_creds.access_token || pyTruthy env.gemini_creds.refresh_token)))) ∧
    claude_ready env = (if claude_use_oauth env then
        (env.claude_creds_exists &&
          (match env.claude_refresh with
           | Except.ok creds => pyTruthy creds.access_token || pyTruthy creds.refresh_token
           | Except.error _ => false))
      else pyTruthy (env.which "claude")) ∧
    cursor_ready env = pyTruthy (env.which "cursor-agent") := by
  refine ⟨?_, ?_, rfl, ?_, ?_, rfl⟩
  · intro c hc
    simp only [provider_checks, h] at hc
    simp only [show (("auto" : String) == "codex") = false from rfl,
      show (("auto" : String) == "gemini") = false from rfl,
      show (("auto" : String) == "claude") = false from rfl,
      show (("auto" : String) == "cursor-agent") = false from rfl,
      if_false, Bool.false_eq_true, List.mem_cons, List.not_mem_nil, or_false] at hc
    rcases hc with rfl | rfl | rfl | rfl | rfl | rfl | rfl
    · exact check_binary_required env "codex" "codex" false
    · exact check_codex_auth_required env false
    · exact check_binary_required env "gemini" "gemini" false
    · exact check_gemini_creds_required env false
    · exact check_binary_required env "claude" "claude" false
    · exact check_claude_oauth_required env false
    · exact check_binary_required env "cursor-agent" "cursor-agent" false
  · intro h1 h2 h3 h4
    have hany : any_provider_ready env = false := by
      simp [any_provider_ready, h1, h2, h3, h4]
    have hrf : required_failed env = true := by
      simp [required_failed, h, hany]
    simp [run_doctor, doctor_result, doctor_code, hrf]
  · cases hf : gemini_use_cloudcode env <;> cases he : env.gemini_creds_exists <;>
      simp [gemini_ready, _check_gemini_creds, _check_binary, hf, he]
  · cases hf : claude_use_oauth env
    · simp [claude_ready, _check_binary, hf]
    · cases he : env.claude_creds_exists
      · simp [claude_ready, _check_claude_oauth_refreshable, hf, he]
      · cases hr : env.claude_refresh <;>
          simp [claude_ready, _check_claude_oauth_refreshable, hf, he, hr]

/-- A concrete auto-mode environment: provider unset, nothing
installed, no credentials. -/
def envAutoBare : Env := { envBare with codex_provider := none }

/-- Witness for C3: in the bare auto environment all four providers are
unready, so the doctor reports FAIL with exit code 1. -/
theorem auto_mode_spec_witness :
    (run_doctor envAutoBare).result = "FAIL" ∧ (run_doctor envAutoBare).code = 1 :=
  (auto_mode_spec envAutoBare rfl).2.1 (by decide) (by decide) (by decide) (by decide)

/-! ### C4 — required-vs-optional marking -/

/-- C4: a check in the provider check set carries `required = true`
exactly when the selection is that concrete provider and the check
gates that provider's readiness in its active mode (codex: binary and
auth; gemini: binary always, creds only under the cloud-code flag;
claude: the OAuth check in OAuth mode, the binary check in CLI mode;
cursor-agent: binary); and the demoted checks (claude binary in OAuth
mode, claude OAuth in CLI mode, gemini creds in non-cloud-code mode)
still appear in the set, non-required. -/
theorem required_marking_spec (env : Env) :
    (∀ c ∈ provider_checks env, (c.required = true ↔
      ((doctor_provider env = "codex" ∧ (c.name = "codex binary" ∨ c.name = "Codex auth")) ∨
       (doctor_provider env = "gemini" ∧ (c.name = "gemini binary" ∨
         (gemini_use_cloudcode env = true ∧ c.name = "Gemini OAuth cache"))) ∨
       (doctor_provider env = "claude" ∧
         ((claude_use_oauth env = true ∧ c.name = "Claude OAuth cache") ∨
          (claude_use_oauth env = false ∧ c.name = "claude binary"))) ∨
       (doctor_provider env = "cursor-agent" ∧ c.name = "cursor-agent binary")))) ∧
    (doctor_provider env = "claude" → claude_use_oauth env = true →
      _check_binary env "claude" "claude" false ∈ provider_checks env) ∧
    (doctor_provider env = "claude" → claude_use_oauth env = false →
      _check_claude_oauth_refreshable env false ∈ provider_checks env) ∧
    (doctor_provider env = "gemini" → gemini_use_cloudcode env = false →
      _check_gemini_creds env false ∈ provider_checks env) := by
  have hp := normalize_provider_mem env.codex_provider
  have hdp : doctor_provider env = _normalize_provider env.codex_provider := rfl
  rw [← hdp] at hp
  simp only [List.mem_cons, List.not_mem_nil, or_false] at hp
  rcases hp with hp | hp | hp | hp | hp
  · refine ⟨?_, by simp [hp], by simp [hp], by simp [hp]⟩
    intro c hc
    simp only [provider_checks, hp] at hc
    simp only [show (("auto" : String) == "codex") = false from rfl,
      show (("auto" : String) == "gemini") = false from rfl,
      show (("auto" : String) == "claude") = false from rfl,
      show (("auto" : String) == "cursor-agent") = false from rfl,
      if_false, Bool.false_eq_true, List.mem_cons, List.not_mem_nil, or_false] at hc
    rcases hc with rfl | rfl | rfl | rfl | rfl | rfl | rfl <;>
      simp [hp, check_binary_required, check_codex_auth_required,
        check_gemini_creds_required, check_claude_oauth_required]
  · refine ⟨?_, by simp [hp], by simp [hp], by simp [hp]⟩
    intro c hc
    simp only [provider_checks, hp] at hc
    simp only [show (("codex" : String) == "codex") = true from rfl, if_true,
      List.mem_cons, List.not_mem_nil, or_false] at hc
    rcases hc with rfl | rfl <;>
      simp [hp, _check_binary, _check_codex_auth]
  · cases hf : gemini_use_cloudcode env
    · refine ⟨?_, by simp [hp], by simp [hp], ?_⟩
      · intro c hc
        simp only [provider_checks, hp, hf] at hc
        simp only [show (("gemini" : String) == "codex") = false from rfl,
          show (("gemini" : String) == "gemini") = true from rfl,
          Bool.false_and, if_false, if_true, Bool.false_eq_true,
          List.mem_cons, List.not_mem_nil, or_false] at hc
        rcases hc with rfl | rfl <;>
          simp [hp, hf, _check_binary, check_gemini_creds_required, check_gemini_creds_name]
      · intro _ _
        simp only [provider_checks, hp, hf]
        simp only [show (("gemini" : String) == "codex") = false from rfl,
          show (("gemini" : String) == "gemini") = true from rfl,
          Bool.false_and, if_false, if_true, Bool.false_eq_true]
        simp
    · refine ⟨?_, by simp [hp], by simp [hp], by simp [hf]⟩
      intro c hc
      simp only [provider_checks, hp, hf] at hc
      simp only [show (("gemini" : String) == "codex") = false from rfl,
        show (("gemini" : String) == "gemini") = true from rfl,
        Bool.true_and, if_false, if_true, Bool.false_eq_true,
        List.mem_cons, List.not_mem_nil, or_false] at hc
      rcases hc with rfl | rfl <;>
        simp [hp, hf, _check_binary, check_gemini_creds_required, check_gemini_creds_name]
  · cases hf : claude_use_oauth env
    · refine ⟨?_, by simp [hf], ?_, by simp [hp]⟩
      · intro c hc
        simp only [provider_checks, hp, hf] at hc
        simp only [show (("claude" : String) == "codex") = false from rfl,
          show (("claude" : String) == "gemini") = false from rfl,
          show (("claude" : String) == "claude") = true from rfl,
          Bool.and_false, Bool.and_true, Bool.not_false, if_false, if_true,
          Bool.false_eq_true, List.mem_cons, List.not_mem_nil, or_false] at hc
        rcases hc with rfl | rfl <;>
          simp [hp, hf, _check_binary, check_claude_oauth_required, check_claude_oauth_name]
      · intro _ _
        simp only [provider_checks, hp, hf]
        simp only [show (("claude" : String) == "codex") = false from rfl,
          show (("claude" : String) == "gemini") = false from rfl,
          show (("claude" : String) == "claude") = true from rfl,
          Bool.and_false, Bool.and_true, Bool.not_false, if_false, if_true,
          Bool.false_eq_true]
        simp
    · refine ⟨?_, ?_, by simp [hf], by simp [hp]⟩
      · intro c hc
        simp only [provider_checks, hp, hf] at hc
        simp only [show (("claude" : String) == "codex") = false from rfl,
          show (("claude" : String) == "gemini") = false from rfl,
          show (("claude" : String) == "claude") = true from rfl,
          Bool.and_false, Bool.and_true, Bool.not_true, if_false, if_true,
          Bool.false_eq_true, List.mem_cons, List.not_mem_nil, or_false] at hc
        rcases hc with rfl | rfl <;>
          simp [hp, hf, _check_binary, check_claude_oauth_required, check_claude_oauth_name]
      · intro _ _
        simp only [provider_checks, hp, hf]
        simp only [show (("claude" : String) == "codex") = false from rfl,
          show (("claude" : String) == "gemini") = false from rfl,
          show (("claude" : String) == "claude") = true from rfl,
          Bool.and_false, Bool.and_true, Bool.not_true, if_false, if_true,
          Bool.false_eq_true]
        simp
  · refine ⟨?_, by simp [hp], by simp [hp], by simp [hp]⟩
    intro c hc
    simp only [provider_checks, hp] at hc
    simp only [show (("cursor-agent" : String) == "codex") = false from rfl,
      show (("cursor-agent" : String) == "gemini") = false from rfl,
      show (("cursor-agent" : String) == "claude") = false from rfl,
      show (("cursor-agent" : String) == "cursor-agent") = true from rfl,
      Bool.false_and, if_false, if_true, Bool.false_eq_true,
      List.mem_cons, List.not_mem_nil, or_false] at hc
    rcases hc with rfl
    simp [hp, _check_binary]

/-- A concrete environment requesting `claude` in CLI mode. -/
def envClaudeCli : Env := { envBare with codex_provider := some "claude" }

/-- Witness for C4: with provider `claude` in CLI mode, the demoted
OAuth check is present in the check set, and the binary check is the
required one. -/
theorem required_marking_spec_witness :
    _check_claude_oauth_refreshable envClaudeCli false ∈ provider_checks envClaudeCli ∧
    ((_check_binary envClaudeCli "claude" "claude" true).required = true ↔
      ((doctor_provider envClaudeCli = "codex" ∧
        ((_check_binary envClaudeCli "claude" "claude" true).name = "codex binary" ∨
         (_check_binary envClaudeCli "claude" "claude" true).name = "Codex auth")) ∨
       (doctor_provider envClaudeCli = "gemini" ∧
        ((_check_binary envClaudeCli "claude" "claude" true).name = "gemini binary" ∨
         (gemini_use_cloudcode envClaudeCli = true ∧
          (_check_binary envClaudeCli "claude" "claude" true).name = "Gemini OAuth cache"))) ∨
       (doctor_provider envClaudeCli = "claude" ∧
        ((claude_use_oauth envClaudeCli = true ∧
          (_check_binary envClaudeCli "claude" "claude" true).name = "Claude OAuth cache") ∨
         (claude_use_oauth envClaudeCli = false ∧
          (_check_binary envClaudeCli "claude" "claude" true).name = "claude binary"))) ∨
       (doctor_provider envClaudeCli = "cursor-agent" ∧
        (_check_binary envClaudeCli "claude" "claude" true).name = "cursor-agent binary"))) :=
  ⟨(required_marking_spec envClaudeCli).2.2.1 rfl rfl,
   (required_marking_spec envClaudeCli).1 _ (by decide)⟩

/-! ### C5 — Claude OAuth check failure containment -/

/-- C5: the Claude OAuth readiness check never raises past its boundary:
a missing credential file yields a failed `CheckResult` whose details
mention the expected file path; a raising refresh collaborator is
caught into a failed `CheckResult` whose details embed the error text;
and only that single check depends on the Claude credential state —
every other check of the doctor's report is unchanged by it, so the
evaluation of the remaining checks proceeds. -/
theorem claude_oauth_failure_spec :
    (∀ (env : Env) (r : Bool), env.claude_creds_exists = false →
      (_check_claude_oauth_refreshable env r).ok = false ∧
      (_check_claude_oauth_refreshable env r).required = r ∧
      ∃ pre post, (_check_claude_oauth_refreshable env r).details =
        pre ++ env.claude_creds_path ++ post) ∧
    (∀ (env : Env) (r : Bool) (e : String), env.claude_creds_exists = true →
      env.claude_refresh = Except.error e →
      (_check_claude_oauth_refreshable env r).ok = false ∧
      (_check_claude_oauth_refreshable env r).required = r ∧
      ∃ pre post, (_check_claude_oauth_refreshable env r).details = pre ++ e ++ post) ∧
    (∀ (env : Env) (b : Bool) (r : Except String OAuthCreds),
      List.Forall₂ (fun a c => a.name = c.name ∧ a.required = c.required ∧
          (a.name ≠ "Claude OAuth cache" → a = c))
        (run_doctor {env with claude_creds_exists := b, claude_refresh := r}).checks
        (run_doctor env).checks) := by
  refine ⟨?_, ?_, ?_⟩
  · intro env r h
    refine ⟨?_, ?_, "missing: ",
      " (run `uv run python -m codex_gateway.claude_oauth_login`)", ?_⟩
    · simp [_check_claude_oauth_refreshable, h]
    · exact check_claude_oauth_required env r
    · simp [_check_claude_oauth_refreshable, h]
  · intro env r e h1 h2
    refine ⟨?_, ?_, env.claude_creds_path ++ " (refresh failed: ", ")", ?_⟩
    · simp [_check_claude_oauth_refreshable, h1, h2]
    · exact check_claude_oauth_required env r
    · simp [_check_claude_oauth_refreshable, h1, h2, string_append_assoc]
  · intro env b r
    have hdp2 : doctor_provider {env with claude_creds_exists := b, claude_refresh := r} =
        doctor_provider env := rfl
    have hg : gemini_use_cloudcode {env with claude_creds_exists := b, claude_refresh := r} =
        gemini_use_cloudcode env := rfl
    have hcu : claude_use_oauth {env with claude_creds_exists := b, claude_refresh := r} =
        claude_use_oauth env := rfl
    have hb : ∀ l bn req, _check_binary {env with claude_creds_exists := b, claude_refresh := r}
        l bn req = _check_binary env l bn req := fun _ _ _ => rfl
    have hca : ∀ req, _check_codex_auth {env with claude_creds_exists := b, claude_refresh := r}
        req = _check_codex_auth env req := fun _ => rfl
    have hgc : ∀ req, _check_gemini_creds {env with claude_creds_exists := b, claude_refresh := r}
        req = _check_gemini_creds env req := fun _ => rfl
    have hwf : ∀ req, _check_workspace_file {env with claude_creds_exists := b, claude_refresh := r}
        req = _check_workspace_file env req := fun _ => rfl
    have hws : ({env with claude_creds_exists := b, claude_refresh := r} : Env).codex_workspace =
        env.codex_workspace := rfl
    have hp := normalize_provider_mem env.codex_provider
    have hdp : doctor_provider env = _normalize_provider env.codex_provider := rfl
    rw [← hdp] at hp
    simp only [List.mem_cons, List.not_mem_nil, or_false] at hp
    simp only [run_doctor, doctor_checks, provider_checks, hdp2, hg, hcu, hb, hca, hgc,
      hwf, hws]
    rcases hp with hp | hp | hp | hp | hp <;>
      rw [hp] <;>
      cases hw : pyTruthy env.codex_workspace <;>
      cases hf : claude_use_oauth env <;>
      simp [List.forall₂_cons, check_claude_oauth_name, check_claude_oauth_required, hf]

/-- A concrete environment: provider `claude` in OAuth mode, credential
file present, refresh collaborator raising. -/
def envClaudeErr : Env :=
  { envBare with
    codex_provider := some "claude"
    claude_use_oauth_api := some "1"
    claude_creds_exists := true }

/-- Witness for C5: the missing-file case at `envBare` (details mention
the path) and the raising-refresh case at `envClaudeErr` (details embed
the error text). -/
theorem claude_oauth_failure_spec_witness :
    ((_check_claude_oauth_refreshable envBare true).ok = false ∧
     (_check_claude_oauth_refreshable envBare true).required = true ∧
     ∃ pre post, (_check_claude_oauth_refreshable envBare true).details =
       pre ++ envBare.claude_creds_path ++ post) ∧
    ((_check_claude_oauth_refreshable envClaudeErr true).ok = false ∧
     (_check_claude_oauth_refreshable envClaudeErr true).required = true ∧
     ∃ pre post, (_check_claude_oauth_refreshable envClaudeErr true).details =
       pre ++ "network unreachable" ++ post) :=
  ⟨claude_oauth_failure_spec.1 envBare true rfl,
   claude_oauth_failure_spec.2.1 envClaudeErr true "network unreachable" rfl rfl⟩

/-! ### C9 — report rendering -/

/-- The length of a `String.mk` is its character count. -/
theorem string_length_mk (l : List Char) : (String.mk l).length = l.length := rfl

/-- The length of an appended string. -/
theorem string_length_append (a b : String) : (a ++ b).length = a.length + b.length := by
  cases a; cases b
  rw [string_append_mk]
  exact List.length_append _ _

/-- A left fold by `max` dominates its initial value. -/
theorem foldl_max_init (l : List Nat) (a : Nat) : a ≤ l.foldl max a := by
  induction l generalizing a with
  | nil => exact Nat.le_refl a
  | cons y ys ih => exact Nat.le_trans (Nat.le_max_left a y) (ih (max a y))

/-- A left fold by `max` dominates every list element. -/
theorem foldl_max_le (l : List Nat) (x : Nat) : x ∈ l → ∀ a, x ≤ l.foldl max a := by
  induction l with
  | nil => intro hx; cases hx
  | cons y ys ih =>
    intro hx a
    rcases List.mem_cons.mp hx with rfl | h
    · exact Nat.le_trans (Nat.le_max_right a x) (foldl_max_init ys (max a x))
    · exact ih h (max a y)

/-- The report width dominates every check name's length. -/
theorem report_width_le (checks : List CheckResult) (c : CheckResult) (hc : c ∈ checks) :
    c.name.length ≤ report_width checks := by
  cases checks with
  | nil => cases hc
  | cons d ds =>
    simp only [report_width, List.isEmpty_cons, if_false, Bool.false_eq_true]
    exact foldl_max_le _ c.name.length
      (List.mem_map_of_mem (fun x => x.name.length) hc) 0

/-- C9 counterexample: at the check `⟨"x", true, false, "d"⟩` the rendered
line is `"- x : OK  d"`, which carries a leading `"- "` bullet and is not
the claimed `"<name> : <status>  <details>"` instance `"x : OK  d"`. -/
theorem report_line_counterexample :
    report_lines [CheckResult.mk "x" true false "d"] = ["- x : OK  d"] ∧
    ljust (CheckResult.mk "x" true false "d").name
        (report_width [CheckResult.mk "x" true false "d"]) ++ " : " ++
      _fmt_status (CheckResult.mk "x" true false "d").ok
        (CheckResult.mk "x" true false "d").required ++ "  " ++
      (CheckResult.mk "x" true false "d").details = "x : OK  d" ∧
    "- x : OK  d" ≠ "x : OK  d" := ⟨by decide, by decide, by decide⟩

/-- C9 amended: each rendered line is `"- <name> : <OK|WARN|FAIL>  <details>"`
(the code prepends a `"- "` bullet to the claimed template), with the name
column left-justified and padded to the width of the longest check name;
the status token is FAIL exactly when the check is required and failed,
WARN exactly when it is not required and failed, and OK otherwise. -/
theorem report_line_spec :
    (∀ checks, report_lines checks = checks.map (render_check_line (report_width checks))) ∧
    (∀ w c, render_check_line w c =
      "- " ++ ljust c.name w ++ " : " ++ _fmt_status c.ok c.required ++ "  " ++ c.details) ∧
    (∀ ok required, _fmt_status ok required = "FAIL" ↔ (ok = false ∧ required = true)) ∧
    (∀ ok required, _fmt_status ok required = "WARN" ↔ (ok = false ∧ required = false)) ∧
    (∀ ok required, _fmt_status ok required = "OK" ↔ ok = true) ∧
    (∀ checks c, c ∈ checks →
      (ljust c.name (report_width checks)).length = report_width checks) := by
  refine ⟨fun checks => rfl, fun w c => rfl, ?_, ?_, ?_, ?_⟩
  · intro ok required
    cases ok <;> cases required <;> simp [_fmt_status]
  · intro ok required
    cases ok <;> cases required <;> simp [_fmt_status]
  · intro ok required
    cases ok <;> cases required <;> simp [_fmt_status]
  · intro checks c hc
    have hle := report_width_le checks c hc
    rw [ljust, string_length_append]
    simp only [string_length_mk, List.length_replicate] at hle ⊢
    omega

/-- Witness for C9 (amended): the padded-length law at a two-check
report whose names differ in length. -/
theorem report_line_spec_witness :
    (ljust (CheckResult.mk "codex binary" false true "x").name
      (report_width [CheckResult.mk "codex binary" false true "x",
        CheckResult.mk "Gemini OAuth cache" true false "y"])).length =
    report_width [CheckResult.mk "codex binary" false true "x",
      CheckResult.mk "Gemini OAuth cache" true false "y"] :=
  report_line_spec.2.2.2.2.2
    [CheckResult.mk "codex binary" false true "x",
     CheckResult.mk "Gemini OAuth cache" true false "y"]
    (CheckResult.mk "codex binary" false true "x") (by decide)

end CodexGateway
